import Mathlib

/-!
Shallow embedding of the access-control and pricing core of `src/app.py`
(a Flask app selling access to file bundles behind a payment gate, using
signed JWT capability tokens).

Modelling conventions:
* Machine time is `Nat` (unix seconds); every operation receives the clock
  explicitly (`now`).
* The JWT library is abstracted: a `Token` is either a payload signed with a
  secret, or a malformed string.  `jwt.decode` with HS256 and default options
  accepts exactly: correct secret and `now < exp` (PyJWT rejects when
  `exp <= now` with zero leeway).
* MongoDB collections are ordinary lists; `find_one` is `List.find?` (first
  match in insertion order), `insert_one` appends.  The `try/except` at
  startup that sets the collections to `None` when Mongo is unreachable is
  modelled by passing `Option (List _)` store states.
* External collaborators (Razorpay gateway, Google Drive) are abstracted:
  the Razorpay signature check is an opaque `Bool` parameter, and the result
  records whether the gateway was contacted (`gatewayCalled`); the Drive
  folder content is a list of `DriveFile`s.
* Python `int()` on the non-negative float products of this program is exact
  floor: the only products are `price * 0.5` (exact for these magnitudes) and
  `price * (100 - d)/100` at the program's concrete values (1900 and 950
  times 0.9, both of which round to the exact integers 1710 and 855), so the
  arithmetic is embedded as `Nat` floor division.
* Python `.lower()`, `.upper()`, `.strip()` are `pyLower`, `pyUpper`,
  `pyStrip` below, applied in the source's order.
* Request JSON fields read with `data.get(k)` are `Option String`; fields
  read with `data.get(k, '')` are `String`; fields read with `data[k]`
  (KeyError when absent) are `Option String` with the KeyError branch made
  explicit.
-/

/-- Python `str.lower` (ASCII case mapping; the emails and codes of this app
are ASCII).  Implemented over the character list so it is kernel-reducible. -/
def pyLower (s : String) : String := ⟨s.data.map Char.toLower⟩

/-- Python `str.upper` (ASCII case mapping), kernel-reducible. -/
def pyUpper (s : String) : String := ⟨s.data.map Char.toUpper⟩

/-- The characters Python `str.strip()` removes. -/
def isPySpace (c : Char) : Bool :=
  c = ' ' || c = '\t' || c = '\n' || c = '\r' || c = '\x0b' || c = '\x0c'

/-- Python `str.strip()`: drop leading and trailing whitespace. -/
def pyStrip (s : String) : String :=
  ⟨((s.data.dropWhile isPySpace).reverse.dropWhile isPySpace).reverse⟩

/-- A static catalog entry (`BUNDLES` values in `app.py`). -/
structure Bundle where
  name : String
  folder_id : String
  price : Nat
deriving DecidableEq, Repr

/-- The static bundle catalog `BUNDLES` of `app.py` (lines 34-65). -/
def BUNDLES : List (String × Bundle) :=
  [ ("ds",     ⟨"Data Structures (DS)", "1cDkiM7rb_C6kwm2dvl-ZOgITqGlLnOUj", 1900⟩),
    ("oop_cg", ⟨"OOP & CG",             "1367AQPrax2YYrMk4Rz-9AVt8Qgy1lSSt", 1900⟩),
    ("os",     ⟨"Operating Systems",    "1kX5qgFguKDAfonJcPwwIUaDzwP1bi7by", 1900⟩),
    ("deld",   ⟨"DELD",                 "1mbyzQ8yyCxYMPbLRUPIHM_2Uvje4pBbd", 1900⟩),
    ("DM",     ⟨"Digital Marketing",    "16L0YVmB5vxaQhaXOCQ1grZasu5sbICNZ", 1900⟩),
    ("uhvpe",  ⟨"uhvpe",                "1sNI4QX_7dA-pgycAQ0tGRdiloi8OoaTY", 1900⟩) ]

/-- The static coupon table `COUPONS` of `app.py` (lines 68-71): only the 10%
coupon is live; the 100% coupon `BFF100` is commented out in the source. -/
def COUPONS : List (String × Nat) := [("ES10", 10)]

/-- Payload of a JWT issued by `create_access_token`: the claims dict
`\x7b'bundle_id': ..., 'exp': ...\x7d`.  `bundle_id` is `Option String`
because `redeem_coupon` reads it with `data.get` and may pass `None`. -/
structure TokenPayload where
  bundle_id : Option String
  exp : Nat
deriving DecidableEq, Repr

/-- A JWT string, abstractly: either a payload correctly signed with some
secret, or any non-token string. -/
inductive Token where
  | signed (payload : TokenPayload) (secret : String)
  | malformed (raw : String)
deriving DecidableEq, Repr

/-- `create_access_token` (app.py lines 102-104): issue a token for
`bundle_id` expiring 2 hours (7200 s) from `now`, signed with the
configured `JWT_SECRET`. -/
def create_access_token (bundle_id : Option String) (secret : String) (now : Nat) : Token :=
  Token.signed ⟨bundle_id, now + 7200⟩ secret

/-- `verify_token` (app.py lines 106-110): `jwt.decode` inside a bare
`try/except` returning `None` on any failure.  Decoding succeeds exactly when
the token is well formed, the signature matches the configured secret, and
the token is unexpired (PyJWT raises `ExpiredSignatureError` when
`exp <= now`). -/
def verify_token (tok : Token) (secret : String) (now : Nat) : Option TokenPayload :=
  match tok with
  | Token.signed p s => if s = secret ∧ now < p.exp then some p else none
  | Token.malformed _ => none

/-- A document of the `active_users` collection.  `redeem_coupon` inserts the
extra `payment_method`/`coupon_used` fields; `verify_payment` does not. -/
structure Entitlement where
  email : Option String
  bundle_id : Option String
  token : Token
  created_at : Nat
  payment_method : Option String
  coupon_used : Option String
deriving DecidableEq, Repr

/-- The persistent state: the two Mongo collections.  Each is `none` when the
startup connection failed (`except` branch, app.py lines 86-89). -/
structure Store where
  access_collection : Option (List Entitlement)
  loyalty_collection : Option (List String)
deriving Repr

/-- Result of `check_access` (app.py lines 137-158).  `status` is the JSON
`status` field; `error` models the `AttributeError` the source raises when a
record matches but `bundle_id` is `None` (the f-string calls
`bundle_id.upper()`), surfaced by Flask as a 500.  The route never touches
the payment gateway, recorded by `gatewayCalled`. -/
structure CheckOut where
  status : String
  token : Option Token
  message : Option String
  gatewayCalled : Bool
deriving DecidableEq, Repr

/-- `check_access` (app.py lines 137-158): with no store, report expired;
otherwise normalize the email (`.lower().strip()`), `find_one` on
(email, bundle_id), and return the stored token verbatim when found. -/
def check_access (access_collection : Option (List Entitlement))
    (email_raw : String) (bundle_id : Option String) : CheckOut :=
  match access_collection with
  | none => ⟨"expired", none, none, false⟩
  | some db =>
    let email := pyStrip (pyLower email_raw)
    match db.find? (fun r => r.email == some email && r.bundle_id == bundle_id) with
    | some r =>
      match bundle_id with
      | some b =>
        ⟨"active", some r.token,
          some ("Welcome back! Access active for " ++ pyUpper b ++ "."), false⟩
      | none => ⟨"error", none, none, false⟩
    | none => ⟨"expired", none, none, false⟩

/-- Result of `redeem_coupon` (app.py lines 161-196): JSON `status`
(`success` / `partial` / `invalid`), the token when one is issued, the
updated collection, and whether the payment gateway was contacted (this
route contains no gateway call). -/
structure RedeemOut where
  status : String
  token : Option Token
  message : String
  access_collection : Option (List Entitlement)
  gatewayCalled : Bool
deriving DecidableEq, Repr

/-- `redeem_coupon` (app.py lines 161-196), parametrized by the coupon table
it reads (the source reads the global `COUPONS`).  The code is normalized
`.strip().upper()`; the email and bundle are taken raw from the request
(`data.get`), with no normalization.  A 100% coupon issues a token and
inserts an entitlement (when the collection is up); a known partial coupon
returns `partial` with no token; an unknown code returns `invalid`. -/
def redeem_coupon (coupons : List (String × Nat)) (secret : String) (now : Nat)
    (access_collection : Option (List Entitlement))
    (coupon_raw : String) (email : Option String) (bundle_id : Option String) :
    RedeemOut :=
  let code := pyUpper (pyStrip coupon_raw)
  match coupons.lookup code with
  | some discount =>
    if discount = 100 then
      let token := create_access_token bundle_id secret now
      let coll :=
        match access_collection with
        | some db => some (db ++ [⟨email, bundle_id, token, now, some "COUPON", some code⟩])
        | none => none
      ⟨"success", some token, "Coupon Applied! Free Access Granted.", coll, false⟩
    else
      ⟨"partial", none,
        "✅ Coupon Valid! " ++ toString discount ++ "% Discount Applied.",
        access_collection, false⟩
  | none =>
    ⟨"invalid", none, "Invalid or Expired Coupon.", access_collection, false⟩

/-- Result of `create_order` (app.py lines 199-240): either the 400
invalid-bundle error, or a Razorpay order for the computed amount. -/
inductive OrderOut where
  | invalidBundle
  | order (amount : Nat)
deriving DecidableEq, Repr

/-- `create_order` (app.py lines 199-240): normalize email
(`.lower().strip()`) and coupon (`.upper().strip()`), look the bundle up in
`BUNDLES`, then apply the loyalty discount (`int(price * 0.5)`, exact floor)
and, after it, a known partial coupon (`int(price * (100-d)/100)`, exact
floor at this program's values).  Unknown coupons are silently ignored; a
100% coupon is skipped by the `discount_percent < 100` guard.  The Razorpay
order-creation call itself is external I/O and not modelled beyond the
amount. -/
def create_order (loyalty_collection : Option (List String))
    (bundle_id : Option String) (email_raw : String) (coupon_raw : String) :
    OrderOut :=
  let user_email := pyStrip (pyLower email_raw)
  let coupon_code := pyStrip (pyUpper coupon_raw)
  match bundle_id.bind (fun b => BUNDLES.lookup b) with
  | none => OrderOut.invalidBundle
  | some bundle =>
    let price1 := bundle.price
    let price2 :=
      match loyalty_collection with
      | some ls => if user_email ∈ ls then price1 / 2 else price1
      | none => price1
    let price3 :=
      match COUPONS.lookup coupon_code with
      | some discount_percent =>
        if discount_percent < 100 then price2 * (100 - discount_percent) / 100 else price2
      | none => price2
    OrderOut.order price3

/-- The JSON body of a `/verify_payment` request.  The three Razorpay fields
and `bundle_id` are read with `data[...]` (KeyError when absent), so they are
`Option` with the KeyError path explicit; `user_email` is read with
`data.get`. -/
structure PaymentReq where
  razorpay_order_id : Option String
  razorpay_payment_id : Option String
  razorpay_signature : Option String
  bundle_id : Option String
  user_email : Option String
deriving DecidableEq, Repr

/-- Result of `verify_payment` (app.py lines 242-267): JSON `status`, the
token on success, the HTTP code, the updated collection, and whether the
gateway signature check ran. -/
structure PaymentOut where
  status : String
  token : Option Token
  httpCode : Nat
  access_collection : Option (List Entitlement)
  gatewayCalled : Bool
deriving DecidableEq, Repr

/-- `verify_payment` (app.py lines 242-267).  The whole body is inside
`try/except`: a missing `data['razorpay_*']` key raises before the gateway is
contacted; `sigValid` abstracts the opaque
`client.utility.verify_payment_signature` pass/fail; a missing
`data['bundle_id']` raises after the gateway call.  On acceptance, a token is
issued for the raw `bundle_id` and an entitlement is inserted with the raw
(unnormalized) `user_email` — when the collection is up; the token is
returned either way. -/
def verify_payment (sigValid : Bool) (secret : String) (now : Nat)
    (access_collection : Option (List Entitlement)) (req : PaymentReq) :
    PaymentOut :=
  match req.razorpay_order_id, req.razorpay_payment_id, req.razorpay_signature with
  | some _, some _, some _ =>
    if sigValid then
      match req.bundle_id with
      | some bid =>
        let token := create_access_token (some bid) secret now
        let coll :=
          match access_collection with
          | some db => some (db ++ [⟨req.user_email, some bid, token, now, none, none⟩])
          | none => none
        ⟨"success", some token, 200, coll, true⟩
      | none => ⟨"error", none, 400, access_collection, true⟩
    else ⟨"error", none, 400, access_collection, true⟩
  | _, _, _ => ⟨"error", none, 400, access_collection, false⟩

/-- A file visible to the Drive collaborator: id, display name, and the
Drive folder (bundle storage folder) containing it. -/
structure DriveFile where
  id : String
  name : String
  folder : String
deriving DecidableEq, Repr

/-- Result of `download_file` (app.py lines 269-290): the uniform 403 denial,
a served file, or the 500 from a Drive failure. -/
inductive DownloadOut where
  | denied (message : String) (code : Nat)
  | file (name : String)
  | driveError (code : Nat)
deriving DecidableEq, Repr

/-- The single denial response of the download route (app.py line 273). -/
def accessDeniedMessage : String := "❌ ACCESS DENIED: Link Expired."

/-- `download_file` (app.py lines 269-290): deny with one fixed 403 response
when the token is absent or fails `verify_token`; otherwise fetch the file
from Drive by id (the route receives only a `file_id`; no bundle is checked
against the token's payload). -/
def download_file (secret : String) (now : Nat) (token : Option Token)
    (drive : List DriveFile) (file_id : String) : DownloadOut :=
  match token with
  | none => DownloadOut.denied accessDeniedMessage 403
  | some t =>
    match verify_token t secret now with
    | none => DownloadOut.denied accessDeniedMessage 403
    | some _ =>
      match drive.find? (fun f => f.id == file_id) with
      | some f => DownloadOut.file f.name
      | none => DownloadOut.driveError 500

/-- The effective percent a coupon string contributes in `create_order`:
the matched coupon's percent when it matches a known coupon with percent
< 100, and 0 otherwise. -/
def effectivePercent (coupon_raw : String) : Nat :=
  match COUPONS.lookup (pyStrip (pyUpper coupon_raw)) with
  | some d => if d < 100 then d else 0
  | none => 0

/-- Every successful lookup in the concrete coupon table yields the 10%
coupon: `COUPONS` has the single entry ES10 -> 10. -/
lemma COUPONS_lookup_cases (s : String) :
    COUPONS.lookup s = none ∨ COUPONS.lookup s = some 10 := by
  simp only [COUPONS, List.lookup]
  cases h : s == "ES10" <;> simp

/-- C1: for every catalog bundle, customer key and coupon code, the amount
charged by `create_order` is
`round_down(round_down(base_price * (0.5 if loyal else 1)) * (100 - p) / 100)`
where `p` is the matched coupon's percent when it matches a known coupon with
percent < 100 and 0 otherwise (`effectivePercent`); in particular base 1900,
loyal customer and the 10% coupon ES10 yield 855, and the amount is never
negative.  Loyalty is applied first, the coupon second, as in the source. -/
theorem c1_pricing (loyalty : List String) (bid : String) (b : Bundle)
    (email coupon : String) (h : BUNDLES.lookup bid = some b) :
    create_order (some loyalty) (some bid) email coupon =
      OrderOut.order ((if pyStrip (pyLower email) ∈ loyalty then b.price / 2 else b.price)
        * (100 - effectivePercent coupon) / 100) ∧
    create_order (some ["x@y.com"]) (some "ds") "x@y.com" "ES10" = OrderOut.order 855 ∧
    (∀ amt, create_order (some loyalty) (some bid) email coupon = OrderOut.order amt → 0 ≤ amt) := by
  refine ⟨?_, by decide, fun amt _ => Nat.zero_le amt⟩
  simp only [create_order, effectivePercent, Option.bind, h]
  rcases COUPONS_lookup_cases (pyStrip (pyUpper coupon)) with hl | hl <;> rw [hl]
  · rw [Nat.sub_zero, Nat.mul_div_cancel _ (by norm_num : (0:Nat) < 100)]
  · norm_num

/-- C1 witness: `c1_pricing` instantiated at the ds bundle, a loyal customer
and the ES10 coupon; the charged amount is 855. -/
theorem c1_witness :
    BUNDLES.lookup "ds" =
      some ⟨"Data Structures (DS)", "1cDkiM7rb_C6kwm2dvl-ZOgITqGlLnOUj", 1900⟩ ∧
    (create_order (some ["x@y.com"]) (some "ds") "x@y.com" "ES10" =
      OrderOut.order ((if pyStrip (pyLower "x@y.com") ∈ ["x@y.com"]
          then (1900 : Nat) / 2 else 1900) * (100 - effectivePercent "ES10") / 100) ∧
     create_order (some ["x@y.com"]) (some "ds") "x@y.com" "ES10" = OrderOut.order 855 ∧
     (∀ amt, create_order (some ["x@y.com"]) (some "ds") "x@y.com" "ES10" = OrderOut.order amt →
        0 ≤ amt)) :=
  ⟨by decide,
   c1_pricing ["x@y.com"] "ds" ⟨"Data Structures (DS)", "1cDkiM7rb_C6kwm2dvl-ZOgITqGlLnOUj", 1900⟩
     "x@y.com" "ES10" (by decide)⟩

/-- C2 counterexample: the claim "a token issued for bundle X fails
verification when presented to the download operation for a file of bundle Y"
is false on the code.  A token issued for bundle ds both passes
`verify_token` and is accepted by `download_file` for a file that lives in
the storage folder of bundle os: the download path checks no bundle at all. -/
theorem c2_counterexample :
    "ds" ≠ "os" ∧
    BUNDLES.lookup "os" =
      some ⟨"Operating Systems", "1kX5qgFguKDAfonJcPwwIUaDzwP1bi7by", 1900⟩ ∧
    (verify_token (create_access_token (some "ds") "k" 0) "k" 100).isSome = true ∧
    download_file "k" 100 (some (create_access_token (some "ds") "k" 0))
      [⟨"f1", "os_notes.pdf", "1kX5qgFguKDAfonJcPwwIUaDzwP1bi7by"⟩] "f1" =
      DownloadOut.file "os_notes.pdf" := by
  refine ⟨by decide, by decide, ?_, by decide⟩
  decide

/-- C2 amended: token verification checks only signature and expiry, never
the bundle binding; a valid, unexpired token issued for any bundle X is
accepted by the download operation for every file, whichever bundle's
storage folder it belongs to. -/
theorem c2_amended (X secret : String) (t now : Nat) (drive : List DriveFile)
    (fid : String) (f : DriveFile) (hexp : now < t + 7200)
    (hf : drive.find? (fun g => g.id == fid) = some f) :
    verify_token (create_access_token (some X) secret t) secret now =
      some ⟨some X, t + 7200⟩ ∧
    download_file secret now (some (create_access_token (some X) secret t)) drive fid =
      DownloadOut.file f.name := by
  have hv : verify_token (create_access_token (some X) secret t) secret now =
      some ⟨some X, t + 7200⟩ := by
    simp [verify_token, create_access_token, hexp]
  refine ⟨hv, ?_⟩
  simp only [download_file, hv, hf]

/-- C2 amended, witness: `c2_amended` at a ds token and a file of the os
bundle's folder. -/
theorem c2_amended_witness :
    (100 < 0 + 7200 ∧
     ([⟨"f1", "os_notes.pdf", "1kX5qgFguKDAfonJcPwwIUaDzwP1bi7by"⟩] :
        List DriveFile).find? (fun g => g.id == "f1") =
       some ⟨"f1", "os_notes.pdf", "1kX5qgFguKDAfonJcPwwIUaDzwP1bi7by"⟩) ∧
    (verify_token (create_access_token (some "ds") "k" 0) "k" 100 =
       some ⟨some "ds", 0 + 7200⟩ ∧
     download_file "k" 100 (some (create_access_token (some "ds") "k" 0))
       [⟨"f1", "os_notes.pdf", "1kX5qgFguKDAfonJcPwwIUaDzwP1bi7by"⟩] "f1" =
       DownloadOut.file "os_notes.pdf") :=
  ⟨⟨by decide, by decide⟩,
   c2_amended "ds" "k" 0 100 [⟨"f1", "os_notes.pdf", "1kX5qgFguKDAfonJcPwwIUaDzwP1bi7by"⟩]
     "f1" ⟨"f1", "os_notes.pdf", "1kX5qgFguKDAfonJcPwwIUaDzwP1bi7by"⟩ (by decide) (by decide)⟩

/-- C3 counterexample: the claim that every operation normalizes the customer
key is false on the code.  `verify_payment` stores the raw email
"Alice@X.com" verbatim, and `check_access` (which does normalize) then fails
to find the entitlement for the very same email string. -/
theorem c3_counterexample :
    (verify_payment true "k" 0 (some [])
        ⟨some "o", some "p", some "sg", some "ds", some "Alice@X.com"⟩).access_collection =
      some [⟨some "Alice@X.com", some "ds", Token.signed ⟨some "ds", 7200⟩ "k", 0, none, none⟩] ∧
    pyStrip (pyLower "Alice@X.com") = "alice@x.com" ∧
    check_access
      (some [⟨some "Alice@X.com", some "ds", Token.signed ⟨some "ds", 7200⟩ "k", 0, none, none⟩])
      "Alice@X.com" (some "ds") = ⟨"expired", none, none, false⟩ := by
  refine ⟨by decide, by decide, by decide⟩

/-- C3 amended: only `check_access` and `create_order` normalize the customer
key (lowercase then trim), so their behaviour is identical on any two emails
with the same normal form; `redeem_coupon` and `verify_payment` store the raw
email unnormalized, so an entitlement recorded under a non-normalized email
is not found by `check_access` (see the counterexample). -/
theorem c3_amended (e1 e2 : String) (h : pyStrip (pyLower e1) = pyStrip (pyLower e2)) :
    (∀ coll bid, check_access coll e1 bid = check_access coll e2 bid) ∧
    (∀ loyalty bid coupon,
       create_order loyalty bid e1 coupon = create_order loyalty bid e2 coupon) ∧
    (∀ coupons secret (now : Nat) db code bid,
       coupons.lookup (pyUpper (pyStrip code)) = some 100 →
       (redeem_coupon coupons secret now (some db) code (some e1) bid).access_collection =
         some (db ++ [⟨some e1, bid, create_access_token bid secret now, now,
            some "COUPON", some (pyUpper (pyStrip code))⟩])) ∧
    (∀ secret (now : Nat) db oid pid sig bid,
       (verify_payment true secret now (some db)
           ⟨some oid, some pid, some sig, some bid, some e1⟩).access_collection =
         some (db ++ [⟨some e1, some bid, create_access_token (some bid) secret now, now,
            none, none⟩])) := by
  refine ⟨fun coll bid => ?_, fun loyalty bid coupon => ?_,
    fun coupons secret now db code bid hc => ?_, fun secret now db oid pid sig bid => rfl⟩
  · rcases coll with _ | db
    · rfl
    · simp only [check_access]
      rw [h]
  · simp only [create_order]
    rw [h]
  · simp only [redeem_coupon, hc, if_true]

/-- C3 amended, witness: `c3_amended` applied to " Alice@X.com " and
"alice@x.com", two emails with the same normal form. -/
theorem c3_witness :
    pyStrip (pyLower " Alice@X.com ") = pyStrip (pyLower "alice@x.com") ∧
    check_access (some []) " Alice@X.com " (some "ds") =
      check_access (some []) "alice@x.com" (some "ds") :=
  ⟨by decide, (c3_amended " Alice@X.com " "alice@x.com" (by decide)).1 (some []) (some "ds")⟩

/-- C4 counterexample: the claim is false as universally stated — after a
successful `verify_payment` for customer "Bob@X.com", `check_access` for the
same customer string reports expired, because the payment path stored the raw
email while the access check normalizes before lookup. -/
theorem c4_counterexample :
    (verify_payment true "k" 0 (some [])
        ⟨some "o", some "p", some "sg", some "ds", some "Bob@X.com"⟩).status = "success" ∧
    (check_access
        (verify_payment true "k" 0 (some [])
            ⟨some "o", some "p", some "sg", some "ds", some "Bob@X.com"⟩).access_collection
        "Bob@X.com" (some "ds")).status = "expired" := by
  refine ⟨by decide, by decide⟩

/-- C4 amended: when the store is available and the customer key is already
normalized (lowercase, no surrounding whitespace), `check_access` reports
active with a token immediately after a successful `verify_payment` for the
same customer and bundle; it reports expired when no stored entitlement
matches the pair; and it never contacts the payment gateway. -/
theorem c4_amended (e bid secret oid pid sig : String) (now : Nat) (db : List Entitlement)
    (hnorm : pyStrip (pyLower e) = e) :
    ((verify_payment true secret now (some db)
        ⟨some oid, some pid, some sig, some bid, some e⟩).status = "success" ∧
     ∃ t m, check_access
         (verify_payment true secret now (some db)
             ⟨some oid, some pid, some sig, some bid, some e⟩).access_collection
         e (some bid) = ⟨"active", some t, some m, false⟩) ∧
    (∀ db2 : List Entitlement,
       (∀ r ∈ db2, ¬(r.email = some (pyStrip (pyLower e)) ∧ r.bundle_id = some bid)) →
       check_access (some db2) e (some bid) = ⟨"expired", none, none, false⟩) ∧
    (∀ coll bid2, (check_access coll e bid2).gatewayCalled = false) := by
  have hvp : verify_payment true secret now (some db)
      ⟨some oid, some pid, some sig, some bid, some e⟩ =
      ⟨"success", some (create_access_token (some bid) secret now), 200,
       some (db ++ [⟨some e, some bid, create_access_token (some bid) secret now, now,
          none, none⟩]), true⟩ := rfl
  refine ⟨⟨by rw [hvp], ?_⟩, fun db2 hdb2 => ?_, fun coll bid2 => ?_⟩
  · rw [hvp]
    have hmem : ∃ x ∈ db ++ [(⟨some e, some bid, create_access_token (some bid) secret now,
        now, none, none⟩ : Entitlement)],
        (x.email == some (pyStrip (pyLower e)) && x.bundle_id == some bid) = true :=
      ⟨⟨some e, some bid, create_access_token (some bid) secret now, now, none, none⟩,
       List.mem_append_right _ (List.mem_singleton.mpr rfl), by simp [hnorm]⟩
    have hsome := List.find?_isSome.mpr hmem
    obtain ⟨r, hr⟩ := Option.isSome_iff_exists.mp hsome
    refine ⟨r.token, "Welcome back! Access active for " ++ pyUpper bid ++ ".", ?_⟩
    simp only [check_access]
    rw [hr]
  · have hfind : db2.find?
        (fun r => r.email == some (pyStrip (pyLower e)) && r.bundle_id == some bid) = none := by
      rw [List.find?_eq_none]
      intro x hx
      simpa using hdb2 x hx
    simp only [check_access]
    rw [hfind]
  · rcases coll with _ | db3
    · rfl
    · simp only [check_access]
      split
      · split <;> rfl
      · rfl

/-- C4 amended, witness: `c4_amended` at the already-normalized customer key
"bob@x.com": payment confirmation succeeds and the subsequent access check is
active. -/
theorem c4_witness :
    pyStrip (pyLower "bob@x.com") = "bob@x.com" ∧
    ((verify_payment true "k" 0 (some [])
        ⟨some "o", some "p", some "sg", some "ds", some "bob@x.com"⟩).status = "success" ∧
     ∃ t m, check_access
         (verify_payment true "k" 0 (some [])
             ⟨some "o", some "p", some "sg", some "ds", some "bob@x.com"⟩).access_collection
         "bob@x.com" (some "ds") = ⟨"active", some t, some m, false⟩) :=
  ⟨by decide, (c4_amended "bob@x.com" "ds" "k" "o" "p" "sg" 0 [] (by decide)).1⟩

/-- C5: token verification fails closed — a malformed token, a token signed
with a different secret, and an expired token all make `verify_token` return
`none` (never an exception), and `download_file` maps a missing token and
every failed verification to the one fixed 403 denial, with no observable
distinction between the failure classes. -/
theorem c5_fail_closed (secret : String) (now : Nat) (tok : Token) :
    (∀ raw, verify_token (Token.malformed raw) secret now = none) ∧
    (∀ p s, s ≠ secret → verify_token (Token.signed p s) secret now = none) ∧
    (∀ p : TokenPayload, p.exp ≤ now → verify_token (Token.signed p secret) secret now = none) ∧
    (verify_token tok secret now = none →
      ∀ drive fid, download_file secret now (some tok) drive fid =
        DownloadOut.denied accessDeniedMessage 403) ∧
    (∀ drive fid, download_file secret now none drive fid =
      DownloadOut.denied accessDeniedMessage 403) := by
  refine ⟨fun raw => rfl, fun p s hs => ?_, fun p hp => ?_, fun hv drive fid => ?_,
    fun drive fid => rfl⟩
  · simp [verify_token, hs]
  · simp [verify_token]
    omega
  · simp only [download_file, hv]

/-- C5 witness: `c5_fail_closed` at concrete malformed, wrong-secret and
expired tokens; each is rejected and each rejection is the identical 403
denial. -/
theorem c5_witness :
    verify_token (Token.malformed "x") "k" 100 = none ∧
    ("other" ≠ "k" ∧ verify_token (Token.signed ⟨some "ds", 50⟩ "other") "k" 100 = none) ∧
    ((⟨some "ds", 50⟩ : TokenPayload).exp ≤ 100 ∧
      verify_token (Token.signed ⟨some "ds", 50⟩ "k") "k" 100 = none) ∧
    (verify_token (Token.malformed "x") "k" 100 = none ∧
      download_file "k" 100 (some (Token.malformed "x")) [] "f" =
        DownloadOut.denied accessDeniedMessage 403) ∧
    download_file "k" 100 none [] "f" = DownloadOut.denied accessDeniedMessage 403 :=
  ⟨(c5_fail_closed "k" 100 (Token.malformed "x")).1 "x",
   ⟨by decide, (c5_fail_closed "k" 100 (Token.malformed "x")).2.1 ⟨some "ds", 50⟩ "other" (by decide)⟩,
   ⟨by decide, (c5_fail_closed "k" 100 (Token.malformed "x")).2.2.1 ⟨some "ds", 50⟩ (by decide)⟩,
   ⟨(c5_fail_closed "k" 100 (Token.malformed "x")).1 "x",
    (c5_fail_closed "k" 100 (Token.malformed "x")).2.2.2.1
      ((c5_fail_closed "k" 100 (Token.malformed "x")).1 "x") [] "f"⟩,
   (c5_fail_closed "k" 100 (Token.malformed "x")).2.2.2.2 [] "f"⟩

/-- C6: a token issued at time t carries expiry t + 7200 s (2 hours);
verification with the issuing secret strictly before the expiry accepts it,
and verification strictly after the expiry rejects it (PyJWT uses zero
leeway, so there is no clock-skew tolerance). -/
theorem c6_token_lifetime (bid : Option String) (secret : String) (t now : Nat) :
    create_access_token bid secret t = Token.signed ⟨bid, t + 7200⟩ secret ∧
    (now < t + 7200 →
      verify_token (create_access_token bid secret t) secret now = some ⟨bid, t + 7200⟩) ∧
    (t + 7200 < now →
      verify_token (create_access_token bid secret t) secret now = none) := by
  refine ⟨rfl, fun h => ?_, fun h => ?_⟩
  · simp [verify_token, create_access_token, h]
  · simp [verify_token, create_access_token]
    omega

/-- C6 witness: `c6_token_lifetime` at issuance time 0 — verification at
time 10 accepts, at time 9000 (past the 7200 s expiry) rejects. -/
theorem c6_witness :
    create_access_token (some "ds") "k" 0 = Token.signed ⟨some "ds", 0 + 7200⟩ "k" ∧
    (10 < 0 + 7200 ∧
      verify_token (create_access_token (some "ds") "k" 0) "k" 10 = some ⟨some "ds", 0 + 7200⟩) ∧
    (0 + 7200 < 9000 ∧
      verify_token (create_access_token (some "ds") "k" 0) "k" 9000 = none) :=
  ⟨(c6_token_lifetime (some "ds") "k" 0 10).1,
   ⟨by decide, (c6_token_lifetime (some "ds") "k" 0 10).2.1 (by decide)⟩,
   ⟨by decide, (c6_token_lifetime (some "ds") "k" 0 9000).2.2 (by decide)⟩⟩

/-- C7: for any coupon table (the route reads the global `COUPONS`, in which
the 100% coupon is commented out), redeeming a coupon whose percent is 100
issues a capability token and records an entitlement without contacting the
payment gateway; a known coupon with percent < 100 returns the partial
outcome with no token; an unknown code returns the invalid outcome with no
token and no entitlement recorded. -/
theorem c7_redeem (coupons : List (String × Nat)) (secret : String) (now : Nat)
    (db : List Entitlement) (code : String) (email bid : Option String) :
    (coupons.lookup (pyUpper (pyStrip code)) = some 100 →
       redeem_coupon coupons secret now (some db) code email bid =
         ⟨"success", some (create_access_token bid secret now),
          "Coupon Applied! Free Access Granted.",
          some (db ++ [⟨email, bid, create_access_token bid secret now, now,
             some "COUPON", some (pyUpper (pyStrip code))⟩]),
          false⟩) ∧
    (∀ d, coupons.lookup (pyUpper (pyStrip code)) = some d → d < 100 →
       redeem_coupon coupons secret now (some db) code email bid =
         ⟨"partial", none, "✅ Coupon Valid! " ++ toString d ++ "% Discount Applied.",
          some db, false⟩) ∧
    (coupons.lookup (pyUpper (pyStrip code)) = none →
       redeem_coupon coupons secret now (some db) code email bid =
         ⟨"invalid", none, "Invalid or Expired Coupon.", some db, false⟩) := by
  refine ⟨fun hc => ?_, fun d hc hd => ?_, fun hc => ?_⟩
  · simp only [redeem_coupon, hc, if_true]
  · have hne : ¬(d = 100) := by omega
    simp only [redeem_coupon, hc, hne, if_false]
  · simp only [redeem_coupon, hc]

/-- C7 witness: `c7_redeem` on a table with a 100% coupon (token issued,
entitlement recorded, gateway untouched), on the live ES10 coupon (partial,
no token) and on an unknown code (invalid, no token, store unchanged). -/
theorem c7_witness :
    ((([("BFF100", 100)] : List (String × Nat)).lookup (pyUpper (pyStrip " bff100")) = some 100) ∧
     redeem_coupon [("BFF100", 100)] "k" 0 (some []) " bff100" (some "e@x.com") (some "ds") =
       ⟨"success", some (create_access_token (some "ds") "k" 0),
        "Coupon Applied! Free Access Granted.",
        some [⟨some "e@x.com", some "ds", create_access_token (some "ds") "k" 0, 0,
           some "COUPON", some (pyUpper (pyStrip " bff100"))⟩], false⟩) ∧
    ((COUPONS.lookup (pyUpper (pyStrip "es10")) = some 10 ∧ 10 < 100) ∧
     redeem_coupon COUPONS "k" 0 (some []) "es10" (some "e@x.com") (some "ds") =
       ⟨"partial", none, "✅ Coupon Valid! " ++ toString 10 ++ "% Discount Applied.",
        some [], false⟩) ∧
    (COUPONS.lookup (pyUpper (pyStrip "NOPE")) = none ∧
     redeem_coupon COUPONS "k" 0 (some []) "NOPE" (some "e@x.com") (some "ds") =
       ⟨"invalid", none, "Invalid or Expired Coupon.", some [], false⟩) :=
  ⟨⟨by decide,
    (c7_redeem [("BFF100", 100)] "k" 0 [] " bff100" (some "e@x.com") (some "ds")).1 (by decide)⟩,
   ⟨⟨by decide, by decide⟩,
    (c7_redeem COUPONS "k" 0 [] "es10" (some "e@x.com") (some "ds")).2.1 10 (by decide) (by decide)⟩,
   ⟨by decide,
    (c7_redeem COUPONS "k" 0 [] "NOPE" (some "e@x.com") (some "ds")).2.2 (by decide)⟩⟩

/-- C8: with the persistence store unreachable at startup (both collections
absent), every operation degrades instead of raising: `check_access` reports
expired, `create_order` prices as if the customer were not loyal (same result
as with an empty loyalty set), a 100%-coupon redemption still succeeds with a
token while its entitlement write is silently dropped, and a successful
payment confirmation still returns a token with its write dropped. -/
theorem c8_degraded (secret : String) (now : Nat) :
    (∀ e bid, check_access none e bid = ⟨"expired", none, none, false⟩) ∧
    (∀ bid email coupon,
       create_order none bid email coupon = create_order (some []) bid email coupon) ∧
    (∀ coupons code email bid, coupons.lookup (pyUpper (pyStrip code)) = some 100 →
       redeem_coupon coupons secret now none code email bid =
         ⟨"success", some (create_access_token bid secret now),
          "Coupon Applied! Free Access Granted.", none, false⟩) ∧
    (∀ oid pid sig bid email,
       verify_payment true secret now none ⟨some oid, some pid, some sig, some bid, email⟩ =
         ⟨"success", some (create_access_token (some bid) secret now), 200, none, true⟩) := by
  refine ⟨fun e bid => rfl, fun bid email coupon => ?_,
    fun coupons code email bid hc => ?_, fun oid pid sig bid email => rfl⟩
  · simp only [create_order]
    rcases bid.bind (fun b => BUNDLES.lookup b) with _ | bundle <;> simp
  · simp only [redeem_coupon, hc, if_true]

/-- C8 witness: `c8_degraded` at concrete inputs with both collections
absent. -/
theorem c8_witness :
    check_access none "e@x.com" (some "ds") = ⟨"expired", none, none, false⟩ ∧
    create_order none (some "ds") "e@x.com" "" = create_order (some []) (some "ds") "e@x.com" "" ∧
    (([("BFF100", 100)] : List (String × Nat)).lookup (pyUpper (pyStrip "BFF100")) = some 100 ∧
     redeem_coupon [("BFF100", 100)] "k" 0 none "BFF100" (some "e@x.com") (some "ds") =
       ⟨"success", some (create_access_token (some "ds") "k" 0),
        "Coupon Applied! Free Access Granted.", none, false⟩) ∧
    verify_payment true "k" 0 none ⟨some "o", some "p", some "sg", some "ds", some "e@x.com"⟩ =
      ⟨"success", some (create_access_token (some "ds") "k" 0), 200, none, true⟩ :=
  ⟨(c8_degraded "k" 0).1 "e@x.com" (some "ds"),
   (c8_degraded "k" 0).2.1 (some "ds") "e@x.com" "",
   ⟨by decide,
    (c8_degraded "k" 0).2.2.1 [("BFF100", 100)] "BFF100" (some "e@x.com") (some "ds") (by decide)⟩,
   (c8_degraded "k" 0).2.2.2 "o" "p" "sg" "ds" (some "e@x.com")⟩

/-- C9 counterexample: the claim is false for a missing bundle_id at
`verify_payment` — with an accepted payment signature but no bundle_id field,
the route hits the KeyError on data[bundle_id] and returns the 400 error with
no token and no entitlement, while the claim says both paths issue a token
even for a missing/None value. -/
theorem c9_counterexample :
    verify_payment true "k" 0 (some []) ⟨some "o", some "p", some "sg", none, some "a@b.c"⟩ =
      ⟨"error", none, 400, some [], true⟩ := by
  decide

/-- C9 amended: neither issuance path validates the bundle against the
catalog — for every present string bundle_id (constrained by nothing, in
particular not by membership in `BUNDLES`), a 100%-coupon redemption and an
accepted payment confirmation both issue a token for it and record an
entitlement row; `redeem_coupon` even issues a token for a missing/None
bundle_id, but `verify_payment` returns an error when bundle_id is missing. -/
theorem c9_amended (bid : String) (secret : String) (now : Nat) (db : List Entitlement)
    (coupons : List (String × Nat)) (code : String) (email : Option String)
    (oid pid sig : String)
    (hc : coupons.lookup (pyUpper (pyStrip code)) = some 100) :
    redeem_coupon coupons secret now (some db) code email (some bid) =
      ⟨"success", some (create_access_token (some bid) secret now),
       "Coupon Applied! Free Access Granted.",
       some (db ++ [⟨email, some bid, create_access_token (some bid) secret now, now,
          some "COUPON", some (pyUpper (pyStrip code))⟩]),
       false⟩ ∧
    verify_payment true secret now (some db)
        ⟨some oid, some pid, some sig, some bid, email⟩ =
      ⟨"success", some (create_access_token (some bid) secret now), 200,
       some (db ++ [⟨email, some bid, create_access_token (some bid) secret now, now,
          none, none⟩]),
       true⟩ ∧
    (redeem_coupon coupons secret now (some db) code email none).token =
      some (create_access_token none secret now) ∧
    verify_payment true secret now (some db)
        ⟨some oid, some pid, some sig, none, email⟩ =
      ⟨"error", none, 400, some db, true⟩ := by
  refine ⟨?_, rfl, ?_, rfl⟩
  · simp only [redeem_coupon, hc, if_true]
  · simp only [redeem_coupon, hc, if_true]

/-- C9 amended, witness: `c9_amended` at the identifier "not_a_bundle", which
is not in the catalog, yet both paths issue a token for it and record a row;
the missing-bundle cases behave as amended. -/
theorem c9_witness :
    BUNDLES.lookup "not_a_bundle" = none ∧
    (([("BFF100", 100)] : List (String × Nat)).lookup (pyUpper (pyStrip "BFF100")) = some 100 ∧
     redeem_coupon [("BFF100", 100)] "k" 0 (some []) "BFF100" (some "a@b.c") (some "not_a_bundle") =
       ⟨"success", some (create_access_token (some "not_a_bundle") "k" 0),
        "Coupon Applied! Free Access Granted.",
        some [⟨some "a@b.c", some "not_a_bundle", create_access_token (some "not_a_bundle") "k" 0,
           0, some "COUPON", some (pyUpper (pyStrip "BFF100"))⟩], false⟩ ∧
     verify_payment true "k" 0 (some [])
         ⟨some "o", some "p", some "sg", some "not_a_bundle", some "a@b.c"⟩ =
       ⟨"success", some (create_access_token (some "not_a_bundle") "k" 0), 200,
        some [⟨some "a@b.c", some "not_a_bundle", create_access_token (some "not_a_bundle") "k" 0,
           0, none, none⟩], true⟩ ∧
     (redeem_coupon [("BFF100", 100)] "k" 0 (some []) "BFF100" (some "a@b.c") none).token =
       some (create_access_token none "k" 0) ∧
     verify_payment true "k" 0 (some []) ⟨some "o", some "p", some "sg", none, some "a@b.c"⟩ =
       ⟨"error", none, 400, some [], true⟩) :=
  ⟨by decide,
   by decide,
   c9_amended "not_a_bundle" "k" 0 [] [("BFF100", 100)] "BFF100" (some "a@b.c") "o" "p" "sg"
     (by decide)⟩

/-- C10: `check_access` returns the stored entitlement token verbatim and
performs no verification of it — whatever record `find_one` returns for the
(customer, bundle) pair, its token is echoed back as active, with no
constraint relating that token to `verify_token`, the signing secret, any
expiry, or the bundle (the quantified record's token is arbitrary; the
witness stores one that is wrong-secret, expired and bound to a different
bundle). -/
theorem c10_verbatim (db : List Entitlement) (e b : String) (r : Entitlement)
    (h : db.find? (fun x => x.email == some (pyStrip (pyLower e)) && x.bundle_id == some b) =
      some r) :
    check_access (some db) e (some b) =
      ⟨"active", some r.token,
       some ("Welcome back! Access active for " ++ pyUpper b ++ "."), false⟩ := by
  simp only [check_access]
  rw [h]

/-- C10 witness: `c10_verbatim` on a store whose only record holds a token
signed with the wrong secret, already expired, and bound to a different
bundle; `verify_token` rejects it, yet `check_access` returns it as active. -/
theorem c10_witness :
    ([⟨some "e@x.com", some "ds", Token.signed ⟨some "os", 0⟩ "WRONG", 5, none, none⟩] :
        List Entitlement).find?
      (fun x => x.email == some (pyStrip (pyLower "e@x.com")) && x.bundle_id == some "ds") =
      some ⟨some "e@x.com", some "ds", Token.signed ⟨some "os", 0⟩ "WRONG", 5, none, none⟩ ∧
    verify_token (Token.signed ⟨some "os", 0⟩ "WRONG") "k" 100 = none ∧
    check_access
      (some [⟨some "e@x.com", some "ds", Token.signed ⟨some "os", 0⟩ "WRONG", 5, none, none⟩])
      "e@x.com" (some "ds") =
      ⟨"active", some (Token.signed ⟨some "os", 0⟩ "WRONG"),
       some ("Welcome back! Access active for " ++ pyUpper "ds" ++ "."), false⟩ :=
  ⟨by decide, by decide,
   c10_verbatim [⟨some "e@x.com", some "ds", Token.signed ⟨some "os", 0⟩ "WRONG", 5, none, none⟩]
     "e@x.com" "ds" ⟨some "e@x.com", some "ds", Token.signed ⟨some "os", 0⟩ "WRONG", 5, none, none⟩
     (by decide)⟩
